import Mathlib

/-!
Shallow embedding of the core service layer of the try-on application
(src/services/openai.ts): image preprocessing, response decoding, the
API-key liveness check, remote-error classification, packshot request
shaping with usage accounting, and the canvas-based compositor.
JavaScript numbers are modelled by rationals, JavaScript strings by
Lean strings, optional / possibly-absent fields by Option, and thrown
exceptions by Except.
-/

namespace TryOn

/-- Characters the JavaScript regex class for whitespace matches (ASCII range). -/
def isWsChar (c : Char) : Bool :=
  c = ' ' || c = '\t' || c = '\n' || c = '\r'

/-- Model of JavaScript toLowerCase on the ASCII range. -/
def strToLower (s : String) : String :=
  String.mk (s.data.map Char.toLower)

/-- Model of the JavaScript includes method: substring containment. -/
def strIncludes (s sub : String) : Bool :=
  decide (sub.data <:+: s.data)

/-! ## Image Preprocessor (resizeFileTo512, resizeBase64To512) -/

/-- Scale factor of the preprocessor: Math.min(512 / width, 512 / height, 1). -/
def resizeScale (w h : ℕ) : ℚ :=
  min (min (512 / (w : ℚ)) (512 / (h : ℚ))) 1

/-- Output dimensions of the preprocessor: Math.round(width * scale) and
Math.round(height * scale), shared by resizeFileTo512 and resizeBase64To512. -/
def resizeDims (w h : ℕ) : ℤ × ℤ :=
  (round ((w : ℚ) * resizeScale w h), round ((h : ℚ) * resizeScale w h))

/-! ## Response Decoder (firstOutput) -/

/-- A content block of a response envelope: a type marker and optional text. -/
structure ContentBlock where
  type : String
  text : Option String
deriving DecidableEq

/-- An output item of a response envelope, with an optional list of content blocks. -/
structure OutputItem where
  content : Option (List ContentBlock)
deriving DecidableEq

/-- A raw response envelope from a structured-output request. -/
structure Envelope where
  output : Option (List OutputItem)
deriving DecidableEq

/-- Decoder failures: the invalid-response-structure error thrown by firstOutput
itself, and the JSON parse error thrown by JSON.parse. -/
inductive DecodeError
  | invalidStructure
  | jsonParse
deriving DecidableEq

/-- The first content block, as selected by the optional chain on the envelope. -/
def firstContent (res : Envelope) : Option ContentBlock :=
  (res.output.getD []).head?.bind fun it => (it.content.getD []).head?

/-- Model of firstOutput, parameterized by the JSON parser: require the first
content block, its type marker to be output_text and its text to be present and
non-empty, then parse the text as JSON. -/
def firstOutput {T : Type} (parse : String → Option T) (res : Envelope) :
    Except DecodeError T :=
  match firstContent res with
  | none => .error .invalidStructure
  | some c =>
    if c.type ≠ "output_text" then .error .invalidStructure
    else
      match c.text with
      | none => .error .invalidStructure
      | some t =>
        if t = "" then .error .invalidStructure
        else
          match parse t with
          | some v => .ok v
          | none => .error .jsonParse

/-! ## API-key liveness check (testApiKey) -/

/-- Outcome of the models.list call: a thrown failure of any kind, or a response
whose data field is either absent / not an array (none) or an array. -/
inductive ModelsListOutcome
  | threw
  | responded (data : Option (List String))
deriving DecidableEq

/-- Model of testApiKey: true exactly when the listing responded with a non-empty
array; every thrown failure collapses to false. -/
def testApiKey : ModelsListOutcome → Bool
  | .threw => false
  | .responded none => false
  | .responded (some l) => decide (0 < l.length)

/-! ## Remote-error classification -/

/-- A remote-call failure as inspected by the catch blocks: an optional numeric
status and an optional message. -/
structure ApiError where
  status : Option ℕ
  message : Option String
deriving DecidableEq

/-- Drop a literal from the head of a character list, or fail. -/
def dropLit : List Char → List Char → Option (List Char)
  | [], cs => some cs
  | _ :: _, [] => none
  | p :: ps, c :: cs => if p = c then dropLit ps cs else none

/-- Skip leading whitespace characters. -/
def skipWs : List Char → List Char
  | [] => []
  | c :: cs => if isWsChar c then skipWs cs else c :: cs

/-- Head match of the invalid-key regex alternative: the literal invalid, then
optional whitespace, then api, then optional whitespace, then key. -/
def invalidKeyAt (cs : List Char) : Bool :=
  match dropLit "invalid".data cs with
  | none => false
  | some r1 =>
    match dropLit "api".data (skipWs r1) with
    | none => false
    | some r2 => (dropLit "key".data (skipWs r2)).isSome

/-- Test a predicate at every suffix of a character list. -/
def anySuffix (p : List Char → Bool) : List Char → Bool
  | [] => p []
  | c :: cs => p (c :: cs) || anySuffix p cs

/-- Case-insensitive test of the invalid-credential message regex: the literal
401, or invalid / api / key separated by optional whitespace. -/
def invalidKeyPattern (m : String) : Bool :=
  strIncludes (strToLower m) "401" || anySuffix invalidKeyAt (strToLower m).data

/-- Case-insensitive test of the quota / rate limit message regex. -/
def quotaPattern (m : String) : Bool :=
  strIncludes (strToLower m) "quota" || strIncludes (strToLower m) "rate limit"

/-- Case-insensitive test of the content policy / safety message regex. -/
def policyPattern (m : String) : Bool :=
  strIncludes (strToLower m) "content policy" || strIncludes (strToLower m) "safety"

/-- Case-insensitive test of the network message regex used by extractPackshot. -/
def networkPattern (m : String) : Bool :=
  strIncludes (strToLower m) "failed to fetch" ||
    strIncludes (strToLower m) "networkerror" ||
    strIncludes (strToLower m) "typeerror: fetch"

/-- Case-insensitive test of the network / CORS message regex used by
validateProfilePhoto. -/
def networkCorsPattern (m : String) : Bool :=
  strIncludes (strToLower m) "failed to fetch" ||
    strIncludes (strToLower m) "cors" ||
    strIncludes (strToLower m) "networkerror" ||
    strIncludes (strToLower m) "typeerror: fetch"

/-- The user-facing failure categories of the error taxonomy. -/
inductive ErrCategory
  | invalidKey
  | rateLimit
  | contentPolicy
  | network
  | generic
deriving DecidableEq

/-- Error classification of the extractPackshot catch block: an if / else chain,
each branch firing on its status code or its message pattern. -/
def classifyPackshotError (e : ApiError) : ErrCategory :=
  let msg := e.message.getD ""
  if e.status == some 401 || invalidKeyPattern msg then .invalidKey
  else if e.status == some 429 || quotaPattern msg then .rateLimit
  else if e.status == some 400 || policyPattern msg then .contentPolicy
  else if networkPattern msg then .network
  else .generic

/-- Error classification of the validateProfilePhoto catch block: as for the
packshot path but with no content-policy branch and with CORS in the network
pattern. -/
def classifyValidateError (e : ApiError) : ErrCategory :=
  let msg := e.message.getD ""
  if e.status == some 401 || invalidKeyPattern msg then .invalidKey
  else if e.status == some 429 || quotaPattern msg then .rateLimit
  else if networkCorsPattern msg then .network
  else .generic

/-- Evaluation of a prioritized list of classification rules: the category of
the first rule whose predicate matches, defaulting to generic. -/
def firstMatch : List ((ApiError → Bool) × ErrCategory) → ApiError → ErrCategory
  | [], _ => .generic
  | (p, c) :: rest, e => if p e then c else firstMatch rest e

/-- The packshot classifier written as an ordered rule list: each category fires
when its status code or its message pattern matches. -/
def packshotRules : List ((ApiError → Bool) × ErrCategory) :=
  [ (fun e => e.status == some 401 || invalidKeyPattern (e.message.getD ""), .invalidKey),
    (fun e => e.status == some 429 || quotaPattern (e.message.getD ""), .rateLimit),
    (fun e => e.status == some 400 || policyPattern (e.message.getD ""), .contentPolicy),
    (fun e => networkPattern (e.message.getD ""), .network) ]

/-- The profile-validation classifier written as an ordered rule list. -/
def validateRules : List ((ApiError → Bool) × ErrCategory) :=
  [ (fun e => e.status == some 401 || invalidKeyPattern (e.message.getD ""), .invalidKey),
    (fun e => e.status == some 429 || quotaPattern (e.message.getD ""), .rateLimit),
    (fun e => networkCorsPattern (e.message.getD ""), .network) ]

/-! ## Usage Accounting and packshot extraction (extractPackshot,
analyzeItemMetadata) -/

/-- Running totals of the usage accumulator. -/
structure UsageTotals where
  text : ℕ
  image : ℕ
  output : ℕ
deriving DecidableEq

/-- A usage record passed to the accumulator: text and image input token counts
and an output token count. -/
structure UsageRecord where
  text_tokens : ℕ
  image_tokens : ℕ
  output_tokens : ℕ
deriving DecidableEq

/-- Modelled from the spec: TokenUsageService (file src/services/TokenUsageService.ts
is not among the sources); section 4.4 describes a process-wide accumulator whose
single operation adds a usage record to the running totals. -/
def addUsage (acc : UsageTotals) (u : UsageRecord) : UsageTotals :=
  ⟨acc.text + u.text_tokens, acc.image + u.image_tokens, acc.output + u.output_tokens⟩

/-- The quality tiers accepted by the Generation Client operations. -/
inductive Quality
  | low
  | medium
  | high
deriving DecidableEq

/-- First segment of the DALL-E prompt template of extractPackshot, up to the
first interpolation of the item description. -/
def promptSeg1 : String :=
  "Create a professional product photo (packshot) of a "

/-- Second segment of the prompt template, between the two interpolations of the
item description. -/
def promptSeg2 : String :=
  " on a clean white background.\n      \n      Requirements:\n      - Extract and isolate the "

/-- Final segment of the prompt template, after the second interpolation. -/
def promptSeg3 : String :=
  " from any background\n      - Place it on a pure white background\n      - Professional studio lighting with soft shadows\n      - Center the product in the frame\n      - Show the complete item without cropping\n      - High-quality product photography style\n      - Clean, minimal, commercial appearance\n      - Ensure the item is the main focus\n      \n      The result should look like a professional e-commerce product photo."

/-- The trimmed DALL-E prompt of extractPackshot, with the item description
interpolated twice. -/
def extractPackshotPrompt (itemDescription : String) : String :=
  promptSeg1 ++ itemDescription ++ promptSeg2 ++ itemDescription ++ promptSeg3

/-- An uploaded image file: a name and binary content (as an opaque string). -/
structure FileModel where
  name : String
  content : String
deriving DecidableEq

/-- The images.generate request body submitted by extractPackshot. -/
structure ImageGenRequest where
  model : String
  prompt : String
  n : ℕ
  size : String
  quality : String
  response_format : String
deriving DecidableEq

/-- The request extractPackshot submits; the first parameter mirrors the unused
image-file parameter of the source function. -/
def extractPackshotRequest (_imageFile : FileModel) (itemDescription : String)
    (q : Quality) : ImageGenRequest :=
  { model := "dall-e-3"
    prompt := extractPackshotPrompt itemDescription
    n := 1
    size := "1024x1024"
    quality := if q = Quality.high then "hd" else "standard"
    response_format := "b64_json" }

/-- An entry of the data array of a DALL-E response, with optional payload. -/
structure DalleEntry where
  b64_json : Option String
deriving DecidableEq

/-- Outcome of the images.generate call: a thrown failure, or a response whose
data array may be absent. -/
inductive DalleOutcome
  | threw (e : ApiError)
  | responded (data : Option (List DalleEntry))

/-- The estimated usage record extractPackshot adds after a response arrives:
the ceiling of a quarter of the prompt length as text tokens, no image tokens,
and a flat output token count by quality tier. -/
def estimatedUsage (itemDescription : String) (q : Quality) : UsageRecord :=
  ⟨((extractPackshotPrompt itemDescription).length + 3) / 4, 0,
    if q = Quality.high then 2000 else 1000⟩

/-- Control flow of extractPackshot around usage accounting and payload
validation: a thrown call is classified and leaves the totals alone; once a
response arrives the estimated usage is added, and only then is the payload
checked, a missing payload being rethrown through the same catch block. -/
def extractPackshotRun (itemDescription : String) (q : Quality)
    (outcome : DalleOutcome) (acc : UsageTotals) :
    Except ErrCategory String × UsageTotals :=
  match outcome with
  | .threw e => (.error (classifyPackshotError e), acc)
  | .responded data =>
    let acc2 := addUsage acc (estimatedUsage itemDescription q)
    match data with
    | none =>
      (.error (classifyPackshotError ⟨none, some "No image data received from DALL-E"⟩), acc2)
    | some entries =>
      match entries.head? with
      | none =>
        (.error (classifyPackshotError ⟨none, some "No image data received from DALL-E"⟩), acc2)
      | some entry =>
        match entry.b64_json with
        | none =>
          (.error (classifyPackshotError ⟨none, some "No image data received from DALL-E"⟩), acc2)
        | some b => (.ok b, acc2)

/-- The usage field of a responses.create response. -/
structure ApiUsage where
  input_tokens : Option ℕ
  cached_tokens : Option ℕ
  output_tokens : Option ℕ

/-- Outcome of the responses.create call of analyzeItemMetadata: a thrown
failure, or a response with an optional usage field and an envelope. -/
inductive RespOutcome
  | threw (e : ApiError)
  | responded (usage : Option ApiUsage) (res : Envelope)

/-- Failures of analyzeItemMetadata: the raw transport failure (the function has
no catch block) or a decode failure from firstOutput. -/
inductive AnalyzeError
  | transport (e : ApiError)
  | decode (d : DecodeError)

/-- Control flow of analyzeItemMetadata around usage accounting: a thrown call
propagates raw and leaves the totals alone; once a response arrives, usage is
added only when the response carries a usage field (cached tokens as text,
input tokens as image, output tokens as output), and firstOutput then decodes. -/
def analyzeItemMetadataRun {T : Type} (parse : String → Option T)
    (outcome : RespOutcome) (acc : UsageTotals) :
    Except AnalyzeError T × UsageTotals :=
  match outcome with
  | .threw e => (.error (.transport e), acc)
  | .responded usage res =>
    let acc2 :=
      match usage with
      | some u =>
        addUsage acc ⟨u.cached_tokens.getD 0, u.input_tokens.getD 0, u.output_tokens.getD 0⟩
      | none => acc
    match firstOutput parse res with
    | .ok v => (.ok v, acc2)
    | .error d => (.error (.decode d), acc2)

/-! ## Client-Side Compositor (generateComposition) -/

/-- The garment types of the heuristic classification. -/
inductive GarmentType
  | shirt
  | jacket
  | pants
  | dress
deriving DecidableEq, Inhabited

/-- Garment classification over the already-lowercased description: sequential
if statements assign jacket, then pants, then dress, a later match overriding
an earlier one, with shirt as the default. -/
def classifyGarment (description : String) : GarmentType :=
  let t1 :=
    if strIncludes description "jacket" || strIncludes description "blazer" then
      GarmentType.jacket
    else GarmentType.shirt
  let t2 :=
    if strIncludes description "pants" || strIncludes description "jeans" then
      GarmentType.pants
    else t1
  if strIncludes description "dress" then GarmentType.dress else t2

/-- Classification of a raw description: lowercase, then classify. -/
def classifyDescription (desc : String) : GarmentType :=
  classifyGarment (strToLower desc)

/-- First-match classification in the priority order the spec words it:
jacket or blazer, then pants or jeans, then dress, then the default shirt. -/
def specPriorityClassify (desc : String) : GarmentType :=
  let d := strToLower desc
  if strIncludes d "jacket" || strIncludes d "blazer" then GarmentType.jacket
  else if strIncludes d "pants" || strIncludes d "jeans" then GarmentType.pants
  else if strIncludes d "dress" then GarmentType.dress
  else GarmentType.shirt

/-- First-match classification in the reversed priority order dress, then pants
or jeans, then jacket or blazer, then shirt: what the sequential overriding if
statements amount to. -/
def lastMatchClassify (desc : String) : GarmentType :=
  let d := strToLower desc
  if strIncludes d "dress" then GarmentType.dress
  else if strIncludes d "pants" || strIncludes d "jeans" then GarmentType.pants
  else if strIncludes d "jacket" || strIncludes d "blazer" then GarmentType.jacket
  else GarmentType.shirt

/-- Decoded image dimensions. -/
structure ImgDims where
  width : ℚ
  height : ℚ
deriving DecidableEq

/-- The fixed canvas width of the compositor. -/
def canvasW : ℚ := 800

/-- The fixed canvas height of the compositor. -/
def canvasH : ℚ := 1000

/-- The Body Region Estimate: proportional measurements derived from the scaled
bounding box of the base photo. -/
structure BodyDims where
  shoulderWidth : ℚ
  torsoHeight : ℚ
  waistWidth : ℚ
  legWidth : ℚ
  shoulderY : ℚ
  chestY : ℚ
  waistY : ℚ
  hipY : ℚ
  centerX : ℚ
deriving DecidableEq

/-- Scale applied to the base photo: Math.min of 90 percent of each canvas
dimension over the corresponding photo dimension. -/
def profileScale (p : ImgDims) : ℚ :=
  min ((canvasW * 0.9) / p.width) ((canvasH * 0.9) / p.height)

/-- Width of the scaled base photo. -/
def scaledProfileWidth (p : ImgDims) : ℚ := p.width * profileScale p

/-- Height of the scaled base photo. -/
def scaledProfileHeight (p : ImgDims) : ℚ := p.height * profileScale p

/-- Horizontal position of the centered scaled base photo. -/
def profileX (p : ImgDims) : ℚ := (canvasW - scaledProfileWidth p) / 2

/-- Vertical position of the centered scaled base photo. -/
def profileY (p : ImgDims) : ℚ := (canvasH - scaledProfileHeight p) / 2

/-- The Body Region Estimate computed from the scaled base photo with the fixed
ratios of the source. -/
def bodyDimensions (p : ImgDims) : BodyDims :=
  { shoulderWidth := scaledProfileWidth p * 0.45
    torsoHeight := scaledProfileHeight p * 0.35
    waistWidth := scaledProfileWidth p * 0.35
    legWidth := scaledProfileWidth p * 0.25
    shoulderY := profileY p + scaledProfileHeight p * 0.15
    chestY := profileY p + scaledProfileHeight p * 0.25
    waistY := profileY p + scaledProfileHeight p * 0.45
    hipY := profileY p + scaledProfileHeight p * 0.55
    centerX := profileX p + scaledProfileWidth p / 2 }

/-- A drawn clothing overlay: the classified garment type and its rectangle. -/
structure OverlayOp where
  gtype : GarmentType
  x : ℚ
  y : ℚ
  w : ℚ
  h : ℚ
deriving DecidableEq, Inhabited

/-- The overlay rectangle computed for clothing item number index with the given
raw description: classify the garment, then place the rectangle from the Body
Region Estimate fields of the type. -/
def overlayFor (p : ImgDims) (index : ℕ) (desc : String) : OverlayOp :=
  let bd := bodyDimensions p
  let t := classifyDescription desc
  if t = GarmentType.pants then
    { gtype := t, w := bd.legWidth * 2, h := scaledProfileHeight p * 0.4,
      x := bd.centerX - bd.legWidth * 2 / 2, y := bd.hipY }
  else if t = GarmentType.dress then
    { gtype := t, w := bd.shoulderWidth, h := scaledProfileHeight p * 0.5,
      x := bd.centerX - bd.shoulderWidth / 2, y := bd.shoulderY }
  else
    let ow := if t = GarmentType.jacket then bd.shoulderWidth * 1.1 else bd.shoulderWidth
    { gtype := t, w := ow, h := bd.torsoHeight,
      x := bd.centerX - ow / 2, y := bd.shoulderY + (index : ℚ) * 10 }

/-- A decode attempt of an image: success with dimensions, or failure. -/
inductive Loaded (α : Type)
  | ok (a : α)
  | failed

/-- Failures of generateComposition: missing 2D context, base photo decode
failure, or clothing decode failure carrying the 1-based item number. -/
inductive CompError
  | noCtx
  | profileLoad
  | itemLoad (i : ℕ)
deriving DecidableEq

/-- Sequential decode of the clothing images in input order; the failure names
the 1-based index of the first item that does not load. -/
def loadAll : List (Loaded ImgDims) → ℕ → Except CompError (List ImgDims)
  | [], _ => .ok []
  | Loaded.failed :: _, i => .error (.itemLoad (i + 1))
  | Loaded.ok d :: rest, i => (loadAll rest (i + 1)).map (d :: ·)

/-- Model of generateComposition: acquire the context, decode the base photo,
decode every clothing image in order, then draw one overlay per loaded clothing
image with the description of the same index, a missing description read as the
empty string. No length comparison between photos and descriptions occurs. -/
def generateComposition (ctxOk : Bool) (profile : Loaded ImgDims)
    (items : List (Loaded ImgDims)) (descs : List String) :
    Except CompError (List OverlayOp) :=
  if !ctxOk then .error .noCtx
  else
    match profile with
    | .failed => .error .profileLoad
    | .ok p =>
      match loadAll items 0 with
      | .error e => .error e
      | .ok imgs =>
        .ok ((List.range imgs.length).map fun i => overlayFor p i (descs.getD i ""))

/-! ## Helper lemmas -/

/-- Rounding is monotone. -/
theorem round_mono_of_le {x y : ℚ} (hxy : x ≤ y) : round x ≤ round y := by
  rw [round_eq, round_eq]
  exact Int.floor_mono (by linarith)

/-- Rounding a rational numeral. -/
theorem round_512 : round ((512 : ℚ)) = (512 : ℤ) := by
  exact_mod_cast round_natCast (α := ℚ) 512

/-- Rounding both coordinates of a common scaling keeps the cross products of
the dimensions within half the perimeter sum: aspect preservation within
rounding tolerance. -/
theorem round_mul_aspect (w h s : ℚ) (hw : 0 ≤ w) (hh : 0 ≤ h) :
    |(round (w * s) : ℚ) * h - (round (h * s) : ℚ) * w| ≤ (w + h) / 2 := by
  obtain ⟨l1, r1⟩ := abs_le.mp (abs_sub_round (w * s))
  obtain ⟨l2, r2⟩ := abs_le.mp (abs_sub_round (h * s))
  have key : (round (w * s) : ℚ) * h - (round (h * s) : ℚ) * w =
      ((round (w * s) : ℚ) - w * s) * h - ((round (h * s) : ℚ) - h * s) * w := by
    ring
  rw [key, abs_le]
  have p1 : (-(1 / 2) : ℚ) * h ≤ ((round (w * s) : ℚ) - w * s) * h :=
    mul_le_mul_of_nonneg_right (by linarith) hh
  have p2 : ((round (w * s) : ℚ) - w * s) * h ≤ (1 / 2) * h :=
    mul_le_mul_of_nonneg_right (by linarith) hh
  have p3 : (-(1 / 2) : ℚ) * w ≤ ((round (h * s) : ℚ) - h * s) * w :=
    mul_le_mul_of_nonneg_right (by linarith) hw
  have p4 : ((round (h * s) : ℚ) - h * s) * w ≤ (1 / 2) * w :=
    mul_le_mul_of_nonneg_right (by linarith) hw
  constructor <;> linarith

/-! ## Claim theorems -/

/-- C6: for every image with positive dimensions, if either dimension exceeds
512 the preprocessor output has larger dimension exactly 512; the output
dimensions are roundings of one common scaling of the input, so the aspect
ratio is preserved within rounding tolerance; and when both dimensions are at
most 512 the output dimensions equal the input dimensions (never upscaled). -/
theorem c6_preprocessor_dims (w h : ℕ) (hw : 0 < w) (hh : 0 < h) :
    ((512 < w ∨ 512 < h) → max (resizeDims w h).1 (resizeDims w h).2 = 512) ∧
      |((resizeDims w h).1 : ℚ) * (h : ℚ) - ((resizeDims w h).2 : ℚ) * (w : ℚ)| ≤
        ((w : ℚ) + (h : ℚ)) / 2 ∧
      (w ≤ 512 → h ≤ 512 → resizeDims w h = ((w : ℤ), (h : ℤ))) := by
  have hwq : (0 : ℚ) < (w : ℚ) := by exact_mod_cast hw
  have hhq : (0 : ℚ) < (h : ℚ) := by exact_mod_cast hh
  refine ⟨?_, ?_, ?_⟩
  · intro hgt
    rcases le_total ((512 : ℚ) / (w : ℚ)) ((512 : ℚ) / (h : ℚ)) with hc | hc
    · have hhw : (h : ℚ) ≤ (w : ℚ) := by
        rw [div_le_div_iff₀ hwq hhq] at hc
        nlinarith
      have hw5 : (512 : ℚ) < (w : ℚ) := by
        rcases hgt with hg | hg
        · exact_mod_cast hg
        · have hgq : (512 : ℚ) < (h : ℚ) := by exact_mod_cast hg
          linarith
      have hlt1 : (512 : ℚ) / (w : ℚ) < 1 := by
        rw [div_lt_one hwq]; exact hw5
      have hres : resizeScale w h = 512 / (w : ℚ) := by
        unfold resizeScale
        rw [min_eq_left hc, min_eq_left hlt1.le]
      have e1 : (w : ℚ) * (512 / (w : ℚ)) = 512 := by
        field_simp
      have d1 : (resizeDims w h).1 = 512 := by
        simp only [resizeDims]
        rw [hres, e1, round_512]
      have hb : (h : ℚ) * (512 / (w : ℚ)) ≤ 512 := by
        calc (h : ℚ) * (512 / (w : ℚ)) ≤ (w : ℚ) * (512 / (w : ℚ)) :=
              mul_le_mul_of_nonneg_right hhw (by positivity)
          _ = 512 := e1
      have d2 : (resizeDims w h).2 ≤ 512 := by
        simp only [resizeDims]
        rw [hres]
        calc round ((h : ℚ) * (512 / (w : ℚ))) ≤ round ((512 : ℚ)) := round_mono_of_le hb
          _ = 512 := round_512
      rw [d1]
      exact max_eq_left d2
    · have hwh : (w : ℚ) ≤ (h : ℚ) := by
        rw [div_le_div_iff₀ hhq hwq] at hc
        nlinarith
      have hh5 : (512 : ℚ) < (h : ℚ) := by
        rcases hgt with hg | hg
        · have hgq : (512 : ℚ) < (w : ℚ) := by exact_mod_cast hg
          linarith
        · exact_mod_cast hg
      have hlt1 : (512 : ℚ) / (h : ℚ) < 1 := by
        rw [div_lt_one hhq]; exact hh5
      have hres : resizeScale w h = 512 / (h : ℚ) := by
        unfold resizeScale
        rw [min_eq_right hc, min_eq_left hlt1.le]
      have e1 : (h : ℚ) * (512 / (h : ℚ)) = 512 := by
        field_simp
      have d2 : (resizeDims w h).2 = 512 := by
        simp only [resizeDims]
        rw [hres, e1, round_512]
      have hb : (w : ℚ) * (512 / (h : ℚ)) ≤ 512 := by
        calc (w : ℚ) * (512 / (h : ℚ)) ≤ (h : ℚ) * (512 / (h : ℚ)) :=
              mul_le_mul_of_nonneg_right hwh (by positivity)
          _ = 512 := e1
      have d1 : (resizeDims w h).1 ≤ 512 := by
        simp only [resizeDims]
        rw [hres]
        calc round ((w : ℚ) * (512 / (h : ℚ))) ≤ round ((512 : ℚ)) := round_mono_of_le hb
          _ = 512 := round_512
      rw [d2]
      exact max_eq_right d1
  · have ha := round_mul_aspect (w : ℚ) (h : ℚ) (resizeScale w h) hwq.le hhq.le
    simpa [resizeDims] using ha
  · intro hw2 hh2
    have h1 : (1 : ℚ) ≤ 512 / (w : ℚ) := by
      rw [le_div_iff₀ hwq]
      have hcast : (w : ℚ) ≤ 512 := by exact_mod_cast hw2
      linarith
    have h2 : (1 : ℚ) ≤ 512 / (h : ℚ) := by
      rw [le_div_iff₀ hhq]
      have hcast : (h : ℚ) ≤ 512 := by exact_mod_cast hh2
      linarith
    have hres : resizeScale w h = 1 := by
      unfold resizeScale
      rw [min_eq_right (le_min h1 h2)]
    simp [resizeDims, hres, round_natCast]

/-- Witness for C6 at the concrete inputs 1024 by 768 and 300 by 200. -/
theorem c6_preprocessor_dims_witness :
    max (resizeDims 1024 768).1 (resizeDims 1024 768).2 = 512 ∧
      resizeDims 300 200 = ((300 : ℤ), (200 : ℤ)) :=
  ⟨(c6_preprocessor_dims 1024 768 (by decide) (by decide)).1 (Or.inl (by decide)),
   (c6_preprocessor_dims 300 200 (by decide) (by decide)).2.2 (by decide) (by decide)⟩

/-- C7: the liveness check is a total boolean function of the listing outcome,
returning true exactly when the listing responded with a non-empty array; every
thrown failure (network, auth, parse) yields false. -/
theorem c7_testApiKey_liveness (r : ModelsListOutcome) :
    testApiKey r = true ↔
      ∃ l, r = ModelsListOutcome.responded (some l) ∧ l ≠ [] := by
  cases r with
  | threw => simp [testApiKey]
  | responded d =>
    cases d with
    | none => simp [testApiKey]
    | some l => simp [testApiKey, List.length_pos]

/-- C8: the decoder succeeds with a value exactly when the first content block
of the envelope exists, carries the output_text type marker, has present and
non-empty text, and that text parses as JSON to the value; every other envelope
fails. -/
theorem c8_firstOutput_decoder {T : Type} (parse : String → Option T)
    (res : Envelope) (v : T) :
    firstOutput parse res = Except.ok v ↔
      ∃ c t, firstContent res = some c ∧ c.type = "output_text" ∧
        c.text = some t ∧ t ≠ "" ∧ parse t = some v := by
  unfold firstOutput
  cases hfc : firstContent res with
  | none => simp
  | some c =>
    by_cases hty : c.type = "output_text"
    · cases htx : c.text with
      | none => simp [hty, htx]
      | some t =>
        by_cases hte : t = ""
        · simp [hty, htx, hte]
        · cases hp : parse t with
          | none => simp [hty, htx, hte, hp]
          | some v2 => simp [hty, htx, hte, hp, eq_comm]
    · simp [hty]

/-- C5 counterexample: an error whose status code 429 indicates the rate-limit
category, with a message matching the invalid-credential pattern, is classified
invalid-credential, so the status-code check did not take priority over the
message-pattern check of an earlier category. -/
theorem c5_counterexample :
    classifyPackshotError ⟨some 429, some "Invalid API key"⟩ = ErrCategory.invalidKey ∧
      ErrCategory.invalidKey ≠ ErrCategory.rateLimit := by
  exact ⟨by decide, by decide⟩

/-- C5 amended: classification evaluates the categories in a fixed order
(invalid-credential, rate-limit, content-policy on the packshot path only,
network, generic) and the first matching category wins, where a category
matches when its status code or its message pattern matches; hence a status
code of 401 always yields invalid-credential, but a message pattern of an
earlier category can capture an error whose status code belongs to a later
category. -/
theorem c5_classification_rules :
    (∀ e, classifyPackshotError e = firstMatch packshotRules e) ∧
      (∀ e, classifyValidateError e = firstMatch validateRules e) ∧
      (∀ m, classifyPackshotError ⟨some 401, m⟩ = ErrCategory.invalidKey) ∧
      (∀ m, classifyValidateError ⟨some 401, m⟩ = ErrCategory.invalidKey) := by
  refine ⟨fun e => rfl, fun e => rfl, fun m => ?_, fun m => ?_⟩
  · simp [classifyPackshotError]
  · simp [classifyValidateError]

/-- C2 counterexample: the description containing both a pants keyword and a
jacket keyword classifies as pants, while the first matching category in the
priority order the claim states would be jacket. -/
theorem c2_counterexample :
    classifyDescription "jeans jacket" = GarmentType.pants ∧
      specPriorityClassify "jeans jacket" = GarmentType.jacket ∧
      GarmentType.pants ≠ GarmentType.jacket := by
  exact ⟨by decide, by decide, by decide⟩

/-- C2 amended: classification is by case-insensitive substring matching, and
the last matching assignment in source order wins, which amounts to first-match
priority dress, then pants or jeans, then jacket or blazer, then the default
shirt; the four example descriptions of the claim classify as stated. -/
theorem c2_classification :
    (∀ d, classifyDescription d = lastMatchClassify d) ∧
      classifyDescription "blue denim jeans" = GarmentType.pants ∧
      classifyDescription "leather jacket" = GarmentType.jacket ∧
      classifyDescription "summer dress" = GarmentType.dress ∧
      classifyDescription "cotton t-shirt" = GarmentType.shirt ∧
      classifyDescription "LEATHER Jacket" = GarmentType.jacket := by
  refine ⟨fun d => ?_, by decide, by decide, by decide, by decide, by decide⟩
  unfold classifyDescription classifyGarment lastMatchClassify
  cases hdr : strIncludes (strToLower d) "dress" <;>
    cases hpj : strIncludes (strToLower d) "pants" || strIncludes (strToLower d) "jeans" <;>
      cases hjb : strIncludes (strToLower d) "jacket" || strIncludes (strToLower d) "blazer" <;>
        simp [hdr, hpj, hjb]

/-- C3 counterexample: two distinct image files produce the same generation
request, so the result of packshot extraction does not depend on the supplied
image, which is neither preprocessed nor included. -/
theorem c3_counterexample :
    extractPackshotRequest ⟨"a.png", "imageA"⟩ "red scarf" Quality.low =
        extractPackshotRequest ⟨"b.png", "imageB"⟩ "red scarf" Quality.low ∧
      (⟨"a.png", "imageA"⟩ : FileModel) ≠ (⟨"b.png", "imageB"⟩ : FileModel) := by
  exact ⟨rfl, by decide⟩

/-- C3 amended: packshot extraction ignores the supplied image and submits a
text-to-image generation request built from the description alone, whose
prompt instructs isolating the described item onto a white background, at size
1024 by 1024, with the quality tier mapped to hd for high and standard
otherwise. -/
theorem c3_packshot_request (img : FileModel) (d : String) (q : Quality) :
    (extractPackshotRequest img d q).model = "dall-e-3" ∧
      (extractPackshotRequest img d q).size = "1024x1024" ∧
      (extractPackshotRequest img d q).quality =
        (if q = Quality.high then "hd" else "standard") ∧
      "white background".data <:+: (extractPackshotRequest img d q).prompt.data ∧
      d.data <:+: (extractPackshotRequest img d q).prompt.data ∧
      ∀ img2, extractPackshotRequest img d q = extractPackshotRequest img2 d q := by
  refine ⟨rfl, rfl, rfl, ?_, ?_, fun img2 => rfl⟩
  · have hseg : "white background".data <:+: promptSeg2.data := by decide
    have hmid : promptSeg2.data <:+:
        (promptSeg1.data ++ d.data) ++ promptSeg2.data ++ (d.data ++ promptSeg3.data) :=
      List.infix_append _ _ _
    have hall := hseg.trans hmid
    simpa [extractPackshotRequest, extractPackshotPrompt, List.append_assoc] using hall
  · have hmid : d.data <:+:
        promptSeg1.data ++ d.data ++ (promptSeg2.data ++ d.data ++ promptSeg3.data) :=
      List.infix_append _ _ _
    simp only [extractPackshotRequest, extractPackshotPrompt, String.data_append,
      List.append_assoc] at hmid ⊢
    exact hmid

set_option maxRecDepth 4000 in
/-- C4 counterexample: a packshot call whose response carries no image payload
fails, yet the usage totals have changed from zero, because the estimated
usage record is added before the payload check and the DALL-E response
reports no usage field at all. -/
theorem c4_counterexample :
    (extractPackshotRun "red scarf" Quality.low
        (DalleOutcome.responded (some [⟨none⟩])) ⟨0, 0, 0⟩).1 =
        Except.error ErrCategory.generic ∧
      (extractPackshotRun "red scarf" Quality.low
        (DalleOutcome.responded (some [⟨none⟩])) ⟨0, 0, 0⟩).2 = ⟨146, 0, 1000⟩ ∧
      (⟨146, 0, 1000⟩ : UsageTotals) ≠ (⟨0, 0, 0⟩ : UsageTotals) := by
  exact ⟨rfl, rfl, by decide⟩

/-- C4 amended: a call that errors before a response arrives leaves the totals
unchanged; after a response, metadata analysis adds usage exactly when the
response reports a usage field, even if decoding then fails, while packshot
extraction always adds an estimated usage record once any response arrives,
even one without image payload whose processing then fails. -/
theorem c4_usage_accounting :
    (∀ d q e acc, (extractPackshotRun d q (DalleOutcome.threw e) acc).2 = acc) ∧
      (∀ (T : Type) (parse : String → Option T) e acc,
        (analyzeItemMetadataRun parse (RespOutcome.threw e) acc).2 = acc) ∧
      (∀ (T : Type) (parse : String → Option T) res acc,
        (analyzeItemMetadataRun parse (RespOutcome.responded none res) acc).2 = acc) ∧
      (∀ (T : Type) (parse : String → Option T) u res acc,
        (analyzeItemMetadataRun parse (RespOutcome.responded (some u) res) acc).2 =
          addUsage acc
            ⟨u.cached_tokens.getD 0, u.input_tokens.getD 0, u.output_tokens.getD 0⟩) ∧
      (∀ d q data acc,
        (extractPackshotRun d q (DalleOutcome.responded data) acc).2 =
          addUsage acc (estimatedUsage d q)) := by
  refine ⟨fun d q e acc => rfl, fun T parse e acc => rfl, fun T parse res acc => ?_,
    fun T parse u res acc => ?_, fun d q data acc => ?_⟩
  · simp only [analyzeItemMetadataRun]
    cases hfo : firstOutput parse res <;> simp [hfo]
  · simp only [analyzeItemMetadataRun]
    cases hfo : firstOutput parse res <;> simp [hfo]
  · unfold extractPackshotRun
    cases data with
    | none => rfl
    | some entries =>
      cases entries with
      | nil => rfl
      | cons a t =>
        cases a with
        | mk b => cases b <;> rfl

/-- C1 counterexample: with one item photo and zero item descriptions the
composition does not fail with a mismatch error; it succeeds, classifying the
extra photo with the empty description as the default shirt. -/
theorem c1_counterexample :
    generateComposition true (Loaded.ok ⟨400, 600⟩) [Loaded.ok ⟨100, 100⟩] [] =
      Except.ok [⟨GarmentType.shirt, 265, 185, 270, 315⟩] := by
  have hclass : classifyDescription "" = GarmentType.shirt := by decide
  simp [generateComposition, loadAll, Except.map, List.range_succ, overlayFor, hclass,
    bodyDimensions, scaledProfileWidth, scaledProfileHeight, profileScale, profileX,
    profileY, canvasW, canvasH]
  norm_num

/-- loadAll succeeds on a list of successfully decoded images, returning one
decoded entry per item. -/
theorem loadAll_ok (items : List (Loaded ImgDims))
    (hok : ∀ x ∈ items, x ≠ Loaded.failed) :
    ∀ i, ∃ ds, loadAll items i = Except.ok ds ∧ ds.length = items.length := by
  induction items with
  | nil => intro i; exact ⟨[], rfl, rfl⟩
  | cons hd tl ih =>
    intro i
    cases hd with
    | failed => exact absurd rfl (hok _ (List.mem_cons_self _ _))
    | ok d =>
      obtain ⟨ds, hds, hlen⟩ := ih (fun x hx => hok x (List.mem_cons_of_mem _ hx)) (i + 1)
      refine ⟨d :: ds, ?_, by simp [hlen]⟩
      simp [loadAll, hds, Except.map]

/-- C1 amended: generateComposition performs no length comparison between item
photos and item descriptions; whenever the context is available and every image
decodes, it succeeds with one overlay per item photo, and every item whose
description is missing is classified as the default shirt. -/
theorem c1_no_mismatch_check (p : ImgDims) (items : List (Loaded ImgDims))
    (descs : List String) (hok : ∀ x ∈ items, x ≠ Loaded.failed) :
    ∃ ops, generateComposition true (Loaded.ok p) items descs = Except.ok ops ∧
      ops.length = items.length ∧
      ∀ i, descs.length ≤ i → i < items.length →
        (ops.getD i default).gtype = GarmentType.shirt := by
  obtain ⟨ds, hds, hlen⟩ := loadAll_ok items hok 0
  refine ⟨(List.range ds.length).map fun i => overlayFor p i (descs.getD i ""), ?_, ?_, ?_⟩
  · simp [generateComposition, hds]
  · simp [hlen]
  · intro i hdescs hitems
    have hi : i < ds.length := by rw [hlen]; exact hitems
    have hget :
        ((List.range ds.length).map fun j => overlayFor p j (descs.getD j "")).getD i default
          = overlayFor p i (descs.getD i "") := by
      rw [List.getD_eq_getElem?_getD]
      simp [List.getElem?_map, List.getElem?_range, hi]
    rw [hget, List.getD_eq_default _ _ hdescs]
    rfl

/-- Witness for the amended C1: two item photos against one description. -/
theorem c1_no_mismatch_check_witness :
    ∃ ops, generateComposition true (Loaded.ok ⟨400, 600⟩)
        [Loaded.ok ⟨100, 100⟩, Loaded.ok ⟨50, 80⟩] ["summer dress"] = Except.ok ops ∧
      ops.length = 2 ∧
      ∀ i, 1 ≤ i → i < 2 → (ops.getD i default).gtype = GarmentType.shirt := by
  have h := c1_no_mismatch_check ⟨400, 600⟩ [Loaded.ok ⟨100, 100⟩, Loaded.ok ⟨50, 80⟩]
    ["summer dress"] (by simp)
  simpa using h

/-- C9: for every base photo and a single clothing item whose description
classifies as jacket, the composition succeeds and the overlay width equals the
shoulder width scaled by 1.1, where the shoulder width is 45 percent of the
scaled profile width and the scaled profile width fits the photo into 90
percent of the 800 by 1000 canvas. -/
theorem c9_jacket_overlay_width (p : ImgDims) (item : Loaded ImgDims) (desc : String)
    (hjacket : classifyDescription desc = GarmentType.jacket)
    (hitem : item ≠ Loaded.failed) :
    ∃ ops, generateComposition true (Loaded.ok p) [item] [desc] = Except.ok ops ∧
      (∀ op ∈ ops, op.w = (bodyDimensions p).shoulderWidth * 1.1) ∧
      (bodyDimensions p).shoulderWidth = scaledProfileWidth p * 0.45 ∧
      scaledProfileWidth p =
        p.width * min ((800 * 0.9 : ℚ) / p.width) ((1000 * 0.9 : ℚ) / p.height) := by
  cases item with
  | failed => exact absurd rfl hitem
  | ok d =>
    refine ⟨[overlayFor p 0 desc], ?_, ?_, rfl, rfl⟩
    · simp [generateComposition, loadAll, Except.map, List.range_succ]
    · intro op hop
      rw [List.mem_singleton] at hop
      subst hop
      simp [overlayFor, hjacket]

/-- Witness for C9 at a 400 by 600 base photo and a leather jacket item. -/
theorem c9_jacket_overlay_width_witness :
    ∃ ops, generateComposition true (Loaded.ok ⟨400, 600⟩) [Loaded.ok ⟨50, 50⟩]
        ["leather jacket"] = Except.ok ops ∧
      (∀ op ∈ ops, op.w = (bodyDimensions ⟨400, 600⟩).shoulderWidth * 1.1) ∧
      (bodyDimensions ⟨400, 600⟩).shoulderWidth = scaledProfileWidth ⟨400, 600⟩ * 0.45 ∧
      scaledProfileWidth ⟨400, 600⟩ =
        400 * min ((800 * 0.9 : ℚ) / 400) ((1000 * 0.9 : ℚ) / 600) :=
  c9_jacket_overlay_width ⟨400, 600⟩ (Loaded.ok ⟨50, 50⟩) "leather jacket" (by decide)
    (fun h => Loaded.noConfusion h)

/-- Every overlay rectangle computed by overlayFor is horizontally centered on
the body center line. -/
theorem overlayFor_centered (p : ImgDims) (i : ℕ) (d : String) :
    (overlayFor p i d).x = (bodyDimensions p).centerX - (overlayFor p i d).w / 2 := by
  unfold overlayFor
  by_cases h1 : classifyDescription d = GarmentType.pants
  · simp [h1]
  · by_cases h2 : classifyDescription d = GarmentType.dress
    · simp [h1, h2]
    · simp [h1, h2]

/-- C10: whenever composition succeeds, every computed overlay rectangle is
horizontally centered on the body center line of the scaled base photo. -/
theorem c10_overlays_centered (p : ImgDims) (items : List (Loaded ImgDims))
    (descs : List String) (ops : List OverlayOp)
    (hok : generateComposition true (Loaded.ok p) items descs = Except.ok ops) :
    ∀ op ∈ ops, op.x = (bodyDimensions p).centerX - op.w / 2 := by
  intro op hop
  unfold generateComposition at hok
  cases hload : loadAll items 0 with
  | error e =>
    rw [hload] at hok
    simp at hok
  | ok ds =>
    rw [hload] at hok
    simp at hok
    subst hok
    obtain ⟨i, hi, rfl⟩ := List.mem_map.mp hop
    exact overlayFor_centered p i _

/-- Witness for C10 at a concrete dress composition. -/
theorem c10_overlays_centered_witness :
    (⟨GarmentType.dress, 265, 185, 270, 450⟩ : OverlayOp).x =
      (bodyDimensions ⟨400, 600⟩).centerX -
        (⟨GarmentType.dress, 265, 185, 270, 450⟩ : OverlayOp).w / 2 :=
  c10_overlays_centered ⟨400, 600⟩ [Loaded.ok ⟨50, 50⟩] ["summer dress"]
    [⟨GarmentType.dress, 265, 185, 270, 450⟩]
    (by
      have hclass : classifyDescription "summer dress" = GarmentType.dress := by decide
      simp [generateComposition, loadAll, Except.map, List.range_succ, overlayFor, hclass,
        bodyDimensions, scaledProfileWidth, scaledProfileHeight, profileScale, profileX,
        profileY, canvasW, canvasH]
      norm_num)
    ⟨GarmentType.dress, 265, 185, 270, 450⟩ (List.mem_singleton.mpr rfl)

end TryOn
